import Mathlib

/-!
Shallow embedding of the stagehand-sdl2 crate's core logic:
the action input resolver (`processed_events` in `src/app.rs` and its
duplicated variant in `src/lib.rs`), axis normalization
(`translate_axis` in `src/input.rs`), the frame update/draw bridge
(`update` / `draw` in `src/lib.rs`), and the storage router
(`get_ticket_with_key` in `src/loading.rs`).

`f32` arithmetic is modelled over `ℚ`.  Every fact proved about the
modelled arithmetic is preserved by IEEE round-to-nearest for the
inputs involved: rounding is monotone and sign-preserving, `x / x`
divides exactly to `1.0`, and the comparisons against the dead-zone
thresholds (`2⁻²³` and `0.1`) are decided at distances far larger than
one `f32` ulp of the compared values.

Parts of the `stagehand` support crate (a separate repository, only
called from here) are modelled from the spec where a claim needs them;
each such definition carries a `Modelled from the spec:` doc comment.
-/

namespace StagehandSDL

/-- SDL scancodes, mouse buttons, gamepad buttons and axes are opaque
identifiers to the resolver; we model each as `Nat`. -/
abbrev Scancode := Nat

abbrev MouseBtn := Nat

abbrev GButton := Nat

abbrev GAxis := Nat

/-- Tickets are integer slot indices (spec §3). -/
abbrev Ticket := Nat

/-- `SDLGamepadFeature` from `src/input.rs`. -/
inductive SDLGamepadFeature where
  | Button : List GButton → SDLGamepadFeature
  | Axis : GAxis → SDLGamepadFeature
  | Stick : GAxis → GAxis → SDLGamepadFeature

/-- `SDLCommand` from `src/input.rs`. -/
inductive SDLCommand where
  | Key : List Scancode → SDLCommand
  | MouseButton : List MouseBtn → SDLCommand
  | MousePosition : SDLCommand
  | Gamepad : SDLGamepadFeature → Option Nat → SDLCommand

/-- Modelled from the spec: `ActionState` of the stagehand crate
(not under `src/`): a digital action is `Up` or `Down`. -/
inductive ActionState where
  | Up : ActionState
  | Down : ActionState
deriving DecidableEq, Repr

/-- Modelled from the spec: `ActionType` of the stagehand crate
(not under `src/`): the closed tagged variant holding a resolved
action value (`Digital{state}`, `Analog{x,y}`, `Axis{value}`). -/
inductive ActionType where
  | Digital : ActionState → ActionType
  | Analog : ℚ → ℚ → ActionType
  | Axis : ℚ → ActionType
deriving DecidableEq, Repr

/-- `translate_axis` from `src/input.rs`: normalize a raw signed
16-bit axis reading; the nonnegative half divides by
`SDL_JOYSTICK_AXIS_MAX = 32767`, the negative half by
`SDL_JOYSTICK_AXIS_MIN = -32768` and negates. -/
def translate_axis (axis : ℤ) : ℚ :=
  if 0 ≤ axis then (axis : ℚ) / 32767
  else -((axis : ℚ) / (-32768 : ℚ))

/-- `f32::EPSILON = 2⁻²³`, the dead-zone threshold used by the
specific-device gamepad paths of `src/app.rs`. -/
def epsilon : ℚ := 1 / 2 ^ 23

/-- The dead-zone threshold used by the any-device gamepad paths of
`src/app.rs` (literal `0.1`). -/
def anyDeadZone : ℚ := 1 / 10

/-- One connected game controller of the device snapshot: which
buttons are held and the raw signed reading of each axis. -/
structure Controller where
  button : GButton → Bool
  axis : GAxis → ℤ

/-- The per-frame device snapshot sampled before resolution:
keyboard state, mouse state, and the connected controllers in their
stable order (`self.controllers` in `src/app.rs`). -/
structure Snapshot where
  keyPressed : Scancode → Bool
  mousePressed : MouseBtn → Bool
  mouseX : ℤ
  mouseY : ℤ
  controllers : List Controller

/-- Outcome of evaluating one command alternative inside the
`'commands` loop: `accept v` models `active = v; break 'commands`,
`set v` models `active = v` with no break (the `MousePosition` arm),
`reject` models falling through to the next alternative with
`active` unchanged. -/
inductive CmdResult where
  | accept : ActionType → CmdResult
  | set : ActionType → CmdResult
  | reject : CmdResult
deriving DecidableEq, Repr

/-- The `Some(index)` gamepad arm of `src/app.rs` lines 78–105,
evaluated against the indexed controller.  In the `Button` arm the
source's inner loop body is `if !controller.button(*button)
{ continue; }`: the bare `continue` targets the button loop itself,
so the loop has no observable effect and the alternative always
sets `Digital(Down)` and breaks. -/
def evalFeatureAt (ctrl : Controller) : SDLGamepadFeature → CmdResult
  | .Button _ => .accept (.Digital .Down)
  | .Axis a =>
      let v := translate_axis (ctrl.axis a)
      if epsilon ≤ |v| then .accept (.Axis v) else .reject
  | .Stick x y =>
      let vx := translate_axis (ctrl.axis x)
      let vy := translate_axis (ctrl.axis y)
      if epsilon ≤ |vx| ∨ epsilon ≤ |vy| then .accept (.Analog vx vy)
      else .reject

/-- The `None` gamepad arm of `src/app.rs` lines 107–138: iterate the
connected controllers in order (`'controller` loop); the first
controller satisfying the feature wins.  Here the `Button` arm uses
`continue 'controller`, which correctly rejects a controller on the
first unheld button, and the axis/stick arms use the `0.1`
dead-zone. -/
def evalFeatureAny (ctrls : List Controller) (f : SDLGamepadFeature) :
    CmdResult :=
  match ctrls with
  | [] => .reject
  | c :: rest =>
    match f with
    | .Button bs =>
        if bs.all c.button then .accept (.Digital .Down)
        else evalFeatureAny rest f
    | .Axis a =>
        let v := translate_axis (c.axis a)
        if anyDeadZone ≤ |v| then .accept (.Axis v)
        else evalFeatureAny rest f
    | .Stick x y =>
        let vx := translate_axis (c.axis x)
        let vy := translate_axis (c.axis y)
        if anyDeadZone ≤ |vx| ∨ anyDeadZone ≤ |vy| then
          .accept (.Analog vx vy)
        else evalFeatureAny rest f

/-- One iteration of the `'commands` loop of `src/app.rs`
`processed_events` (lines 48–141).  `none` models the Rust panic of
`&self.controllers[*index]` when the explicit device index is out of
range.  A `Key` or `MouseButton` alternative accepts exactly when
every listed predicate holds (the `break 'key` / `break 'button`
blocks); `MousePosition` assigns `active` without breaking. -/
def evalCommandApp (s : Snapshot) : SDLCommand → Option CmdResult
  | .Key c =>
      some (if c.all s.keyPressed then .accept (.Digital .Down) else .reject)
  | .MouseButton b =>
      some (if b.all s.mousePressed then .accept (.Digital .Down) else .reject)
  | .MousePosition =>
      some (.set (.Analog (s.mouseX : ℚ) (s.mouseY : ℚ)))
  | .Gamepad f ctl =>
    match ctl with
    | some i => (s.controllers.get? i).map (fun c => evalFeatureAt c f)
    | none => some (evalFeatureAny s.controllers f)

/-- The `'commands` loop of `src/app.rs` `processed_events`: walk the
alternatives in order, tracking `active`; `accept` breaks out with
its value, `set` updates `active` and continues, `reject` continues.
`none` propagates the controller-index panic. -/
def resolveApp (s : Snapshot) (active : ActionType) :
    List SDLCommand → Option ActionType
  | [] => some active
  | c :: rest =>
    match evalCommandApp s c with
    | none => none
    | some (.accept v) => some v
    | some (.set v) => resolveApp s v rest
    | some .reject => resolveApp s active rest

/-- One iteration of the `'commands` loop of the `src/lib.rs` variant
of `processed_events` (lines 199–227): identical to the app variant
on `Key`, `MouseButton` and `MousePosition`; every gamepad command
falls into the `_ => {}` arm, leaving `active` unchanged. -/
def evalCommandLib (s : Snapshot) : SDLCommand → Option CmdResult
  | .Key c =>
      some (if c.all s.keyPressed then .accept (.Digital .Down) else .reject)
  | .MouseButton b =>
      some (if b.all s.mousePressed then .accept (.Digital .Down) else .reject)
  | .MousePosition =>
      some (.set (.Analog (s.mouseX : ℚ) (s.mouseY : ℚ)))
  | .Gamepad _ _ => some .reject

/-- The `'commands` loop of the `src/lib.rs` variant of
`processed_events`. -/
def resolveLib (s : Snapshot) (active : ActionType) :
    List SDLCommand → Option ActionType
  | [] => some active
  | c :: rest =>
    match evalCommandLib s c with
    | none => none
    | some (.accept v) => some v
    | some (.set v) => resolveLib s v rest
    | some .reject => resolveLib s active rest

/-- Modelled from the spec: `InputError` of the stagehand crate
(not under `src/`). -/
inductive InputError where
  | ActionIndexOutOfBounds : InputError
  | DuplicateAction : InputError
deriving DecidableEq, Repr

/-- Modelled from the spec: a user of the stagehand crate's
`InputMap` (not under `src/`) — an independent action namespace
holding the most recently resolved value of each action. -/
structure InputUser where
  actions : List ActionType
deriving DecidableEq, Repr

/-- Modelled from the spec: `update_action` of the stagehand crate
(not under `src/`): fails with `ActionIndexOutOfBounds` if the index
does not exist for that user, otherwise stores the value; on failure
no action value changes. -/
def update_action (u : InputUser) (i : Nat) (v : ActionType) :
    Except InputError InputUser :=
  if i < u.actions.length then .ok ⟨u.actions.set i v⟩
  else .error .ActionIndexOutOfBounds

/-- One flattened binding entry of the stagehand `InputMap`
(`input.commands[command_options]` in `src/app.rs`): the ordered
alternatives plus the owning user and action indices. -/
structure CommandOptions where
  commands : List SDLCommand
  user_index : Nat
  action_index : Nat

/-- The body of the outer resolver loop of `src/app.rs`
`processed_events` (lines 45–155) for one flattened entry: resolve
the alternatives starting from `Digital(Up)`, then call
`update_action`; an `ActionIndexOutOfBounds` error is logged
(second component counts logged errors) and the users are left
unchanged.  `none` models the Rust panics (`input.users[user_index]`
or a controller index out of range). -/
def processOne (eval : Snapshot → List SDLCommand → Option ActionType)
    (s : Snapshot) (users : List InputUser) (co : CommandOptions) :
    Option (List InputUser × Nat) :=
  match eval s co.commands with
  | none => none
  | some active =>
    match users.get? co.user_index with
    | none => none
    | some u =>
      match update_action u co.action_index active with
      | .ok u2 => some (users.set co.user_index u2, 0)
      | .error .ActionIndexOutOfBounds => some (users, 1)
      | .error _ => some (users, 0)

/-- The outer resolver loop over all flattened binding entries. -/
def processAll (eval : Snapshot → List SDLCommand → Option ActionType)
    (s : Snapshot) (users : List InputUser) :
    List CommandOptions → Option (List InputUser × Nat)
  | [] => some (users, 0)
  | co :: rest =>
    match processOne eval s users co with
    | none => none
    | some (us, n) =>
      match processAll eval s us rest with
      | none => none
      | some (us2, m) => some (us2, n + m)

/-- An OS event observed by the `poll_iter` loop. -/
inductive SDLEvent where
  | Quit : SDLEvent
  | Other : SDLEvent
deriving DecidableEq

/-- Whether the polled events contain a quit event. -/
def hasQuit (evts : List SDLEvent) : Bool :=
  evts.any (fun e => e matches .Quit)

/-- `processed_events` of `src/app.rs` (lines 29–160): a quit event
returns `Ok(false)` before any resolution; otherwise every flattened
entry is resolved with the app-variant command evaluator and the
function returns `Ok(true)`.  Result: updated users, count of logged
`ActionIndexOutOfBounds` errors, and the returned boolean; `none`
models a panic. -/
def processed_events (evts : List SDLEvent) (s : Snapshot)
    (users : List InputUser) (entries : List CommandOptions) :
    Option (List InputUser × Nat × Bool) :=
  if hasQuit evts then some (users, 0, false)
  else
    match processAll (fun s cs => resolveApp s (.Digital .Up) cs) s users
        entries with
    | none => none
    | some (us, n) => some (us, n, true)

/-- `processed_events` of the `src/lib.rs` variant (lines 182–243):
same loop with the lib-variant command evaluator. -/
def processed_events_lib (evts : List SDLEvent) (s : Snapshot)
    (users : List InputUser) (entries : List CommandOptions) :
    Option (List InputUser × Nat × Bool) :=
  if hasQuit evts then some (users, 0, false)
  else
    match processAll (fun s cs => resolveLib s (.Digital .Up) cs) s users
        entries with
    | none => none
    | some (us, n) => some (us, n, true)

/-- Modelled from the spec: `ResourceError` of the stagehand crate
(not under `src/`). -/
inductive ResourceError where
  | TicketNotFound : ResourceError
  | ResourceNotLoaded : ResourceError
  | AlreadyLocked : ResourceError
  | UnknownStorage : String → ResourceError
deriving DecidableEq, Repr

/-- Modelled from the spec: a resource slot of the stagehand
`ResourceStorage` (not under `src/`): `Pending` (declared, not yet
loaded) or `Loaded`. -/
inductive Slot (V : Type) where
  | Pending : Slot V
  | Loaded : V → Slot V
deriving DecidableEq

/-- Modelled from the spec: the observable state of one stagehand
`ResourceStorage` (not under `src/`): key at index `i` owns ticket
`i`, `slots` hold the resource values, `locked` records the one-way
lock. -/
structure Store (V : Type) where
  keys : List String
  slots : List (Slot V)
  locked : Bool

/-- Modelled from the spec: `get_by_ticket` of the stagehand
`ResourceStorage` (not under `src/`): `TicketNotFound` if the ticket
is out of range, `ResourceNotLoaded` if the slot is still pending. -/
def get_by_ticket (st : Store V) (t : Ticket) : Except ResourceError V :=
  match st.slots.get? t with
  | none => .error .TicketNotFound
  | some .Pending => .error .ResourceNotLoaded
  | some (.Loaded v) => .ok v

/-- Modelled from the spec: `take_ticket` of the stagehand
`ResourceStorage` (not under `src/`): idempotent per key while
unlocked (an existing key returns its ticket, a new key gets the
next slot index); after `lock()` a new key fails with
`AlreadyLocked`. -/
def take_ticket (st : Store V) (key : String) : Except ResourceError Ticket :=
  match st.keys.indexOf? key with
  | some i => .ok i
  | none => if st.locked then .error .AlreadyLocked else .ok st.keys.length

/-- Modelled from the spec: `StorageType` of the stagehand crate
(not under `src/`): the storage-kind tag routed by the directory;
the spec leaves the kind list open to extension, and the match in
`src/loading.rs` has a wildcard arm, so `Other` stands for every
further kind. -/
inductive StorageType where
  | Texture : StorageType
  | Font : StorageType
  | Music : StorageType
  | Sound : StorageType
  | Other : String → StorageType
deriving DecidableEq

/-- Modelled from the spec: the `to_string` rendering of a
`StorageType` used in the `UnknownStorage` payload. -/
def StorageType.asString : StorageType → String
  | .Texture => "Texture"
  | .Font => "Font"
  | .Music => "Music"
  | .Sound => "Sound"
  | .Other s => s

/-- `SDLStorage` from `src/loading.rs`: one typed store per resource
kind. -/
structure SDLStorage (T F S M : Type) where
  fonts : Store F
  textures : Store T
  sounds : Store S
  music : Store M

/-- `get_ticket_with_key` from `src/loading.rs` (lines 42–56): route
the storage kind to its matching store's `take_ticket`; every other
kind fails with `UnknownStorage(kind.to_string())`. -/
def get_ticket_with_key (st : SDLStorage T F S M)
    (storage_key : StorageType) (resource_key : String) :
    Except ResourceError Ticket :=
  match storage_key with
  | .Texture => take_ticket st.textures resource_key
  | .Font => take_ticket st.fonts resource_key
  | .Music => take_ticket st.music resource_key
  | .Sound => take_ticket st.sounds resource_key
  | k => .error (.UnknownStorage k.asString)

/-- `UpdateAction` of the stagehand `utility2d` module as consumed by
the `src/lib.rs` `update` loop (lines 252–271): a playback
instruction returned by scene update.  Volumes are `f32`, modelled
over `ℚ`. -/
inductive UpdateAction where
  | PlayMusic : Ticket → ℤ → ℚ → UpdateAction
  | PlaySound : Ticket → ℚ → UpdateAction

/-- Truncation toward zero of a rational, matching Rust's `as i32`
cast (saturation at the `i32` bounds is out of the modelled range). -/
def truncToInt (q : ℚ) : ℤ :=
  if 0 ≤ q then ⌊q⌋ else ⌈q⌉

/-- `SDLApp::volume` from `src/lib.rs` line 89:
`(v * MAX_VOLUME as f32) as i32` with `MAX_VOLUME = 128`. -/
def volume (v : ℚ) : ℤ :=
  truncToInt (v * 128)

/-- Observable effect of one audio instruction: the backend call it
reaches, or the resource error it logs. -/
inductive AudioEvent where
  | MusicPlayed : ℤ → ℤ → AudioEvent
  | SoundPlayed : Ticket → ℤ → AudioEvent
  | LoggedResourceError : ResourceError → AudioEvent
deriving DecidableEq, Repr

/-- `play_music` from `src/lib.rs` (lines 93–104): resolve the ticket
in the music store; on success set the volume and play, on failure
log the resource error and do nothing else. -/
def play_music (st : SDLStorage T F S M) (t : Ticket) (loops : ℤ)
    (vol : ℚ) : List AudioEvent :=
  match get_by_ticket st.music t with
  | .ok _ => [.MusicPlayed loops (volume vol)]
  | .error e => [.LoggedResourceError e]

/-- `play_sound` from `src/lib.rs` (lines 106–126): resolve the
ticket in the sound store; on success set the chunk volume and play
it, on failure log the resource error and do nothing else.  The
runtime borrow of the chunk always succeeds in the single-threaded
model. -/
def play_sound (st : SDLStorage T F S M) (t : Ticket) (vol : ℚ) :
    List AudioEvent :=
  match get_by_ticket st.sounds t with
  | .ok _ => [.SoundPlayed t (volume vol)]
  | .error e => [.LoggedResourceError e]

/-- The instruction dispatch inside the `src/lib.rs` `update` loop
(lines 256–263). -/
def execInstr (st : SDLStorage T F S M) : UpdateAction → List AudioEvent
  | .PlayMusic t loops vol => play_music st t loops vol
  | .PlaySound t vol => play_sound st t vol

/-- One batch of the `src/lib.rs` `update` loop: every instruction is
executed in order; nothing short-circuits the batch. -/
def execBatch (st : SDLStorage T F S M) :
    List UpdateAction → List AudioEvent
  | [] => []
  | i :: rest => execInstr st i ++ execBatch st rest

/-- The full instruction pass of `src/lib.rs` `update` (lines
252–271) over the batches returned by scene update. -/
def execUpdate (st : SDLStorage T F S M) :
    List (List UpdateAction) → List AudioEvent
  | [] => []
  | b :: rest => execBatch st b ++ execUpdate st rest

/-- Observable effect of the draw pass. -/
inductive DrawEvent where
  | Rendered : Ticket → DrawEvent
  | LoggedResourceError : ResourceError → DrawEvent
  | Presented : DrawEvent
deriving DecidableEq, Repr

/-- The draw-instruction pass of `src/lib.rs` `draw` (lines 290–305),
over the flattened draw instructions (each carrying its texture
ticket): a successfully resolved ticket is rendered and the loop
continues; a ticket resolution failure logs the error and `return`s
from `draw`, abandoning every remaining instruction and skipping
`canvas.present()`; only a fully successful pass ends with the
present. -/
def drawFrame (st : SDLStorage T F S M) :
    List Ticket → List DrawEvent
  | [] => [.Presented]
  | t :: rest =>
    match get_by_ticket st.textures t with
    | .ok _ => .Rendered t :: drawFrame st rest
    | .error e => [.LoggedResourceError e]

/-! ### Concrete fixtures used by counterexamples and witnesses -/

/-- A connected controller holding no buttons, all axes centered. -/
def idleController : Controller :=
  ⟨fun _ => false, fun _ => 0⟩

/-- A controller holding no buttons whose every axis reads `50`. -/
def axis50Controller : Controller :=
  ⟨fun _ => false, fun _ => 50⟩

/-- Snapshot with no key or button held and one idle controller. -/
def snapNoInput : Snapshot :=
  ⟨fun _ => false, fun _ => false, 0, 0, [idleController]⟩

/-- Snapshot with scancode `0` held and the mouse at `(5, 7)`. -/
def snapMouseKey : Snapshot :=
  ⟨fun k => k == 0, fun _ => false, 5, 7, []⟩

/-- Snapshot with one controller whose axes read `50`. -/
def snapAxis50 : Snapshot :=
  ⟨fun _ => false, fun _ => false, 0, 0, [axis50Controller]⟩

/-- Snapshot with nothing held and no controller connected. -/
def snapEmpty : Snapshot :=
  ⟨fun _ => false, fun _ => false, 0, 0, []⟩

/-! ### Claim theorems -/

/-- Claim C4: `translate_axis` maps every raw signed 16-bit reading
into `[-1, 1]`, scales the nonnegative half by `32767` and the
negative half by `-32768` independently, sends `32767` to `1` and
`-32768` to `-1`, and preserves the sign of the input. -/
theorem translate_axis_normalizes (a : ℤ) (hlo : -32768 ≤ a)
    (hhi : a ≤ 32767) :
    (-1 ≤ translate_axis a ∧ translate_axis a ≤ 1) ∧
    translate_axis 32767 = 1 ∧
    translate_axis (-32768) = -1 ∧
    (0 ≤ a → translate_axis a = (a : ℚ) / 32767) ∧
    (a < 0 → translate_axis a = -((a : ℚ) / (-32768 : ℚ))) ∧
    (0 < a → 0 < translate_axis a) ∧
    (a < 0 → translate_axis a < 0) ∧
    (a = 0 → translate_axis a = 0) := by
  have h32 : (0 : ℚ) < 32767 := by norm_num
  refine ⟨?_, by norm_num [translate_axis], by norm_num [translate_axis],
    ?_, ?_, ?_, ?_, ?_⟩
  · unfold translate_axis
    by_cases h : 0 ≤ a
    · rw [if_pos h]
      have ha : (0 : ℚ) ≤ (a : ℚ) := by exact_mod_cast h
      have hb : (a : ℚ) ≤ 32767 := by exact_mod_cast hhi
      constructor
      · have : (0 : ℚ) ≤ (a : ℚ) / 32767 := by positivity
        linarith
      · rw [div_le_one h32]
        exact hb
    · rw [if_neg h]
      push_neg at h
      have ha : (a : ℚ) < 0 := by exact_mod_cast h
      have hb : (-32768 : ℚ) ≤ (a : ℚ) := by exact_mod_cast hlo
      have hrw : -((a : ℚ) / (-32768 : ℚ)) = (a : ℚ) / 32768 := by
        rw [div_neg, neg_neg]
      rw [hrw]
      constructor
      · rw [le_div_iff₀ (by norm_num : (0 : ℚ) < 32768)]
        linarith
      · have : (a : ℚ) / 32768 < 0 :=
          div_neg_of_neg_of_pos ha (by norm_num)
        linarith
  · intro h
    unfold translate_axis
    rw [if_pos h]
  · intro h
    unfold translate_axis
    rw [if_neg (not_le.mpr h)]
  · intro h
    have h0 : (0 : ℤ) ≤ a := le_of_lt h
    unfold translate_axis
    rw [if_pos h0]
    have : (0 : ℚ) < (a : ℚ) := by exact_mod_cast h
    positivity
  · intro h
    unfold translate_axis
    rw [if_neg (not_le.mpr h)]
    have ha : (a : ℚ) < 0 := by exact_mod_cast h
    have : (a : ℚ) / (-32768 : ℚ) > 0 :=
      div_pos_of_neg_of_neg ha (by norm_num)
    linarith
  · intro h
    subst h
    norm_num [translate_axis]

/-- Witness for C4 at the concrete reading `12345`. -/
theorem translate_axis_normalizes_witness :
    -1 ≤ translate_axis 12345 ∧ translate_axis 12345 ≤ 1 :=
  (translate_axis_normalizes 12345 (by decide) (by decide)).1

/-- Claim C1 (code bug): in the specific-device gamepad `Button` arm
of `src/app.rs` (lines 79–87) the failing predicate check reads
`if !controller.button(*button) { continue; }`, whose bare `continue`
only advances the button loop itself; the alternative therefore
resolves to `Digital(Down)` even when no listed button is held,
contradicting the spec's conjunction rule.  Evaluated at the failing
input: one connected controller holding nothing, alternative
`Gamepad(Button([0]), Some(0))`. -/
theorem gamepad_button_specific_always_down :
    idleController.button 0 = false ∧
    resolveApp snapNoInput (.Digital .Up) [.Gamepad (.Button [0]) (some 0)]
      = some (.Digital .Down) := by
  exact ⟨rfl, rfl⟩

/-- Claim C2 counterexample: with the mouse at `(5, 7)` and scancode
`0` held, the bindings `[MousePosition, Key([0])]` have a first
matching alternative implying `Analog(5, 7)`, yet the resolver
reports `Digital(Down)`: the `MousePosition` arm assigns `active`
without `break 'commands`, so the later alternative overwrites it. -/
theorem mouse_position_overwritten :
    resolveApp snapMouseKey (.Digital .Up) [.MousePosition, .Key [0]]
      = some (.Digital .Down) ∧
    resolveApp snapMouseKey (.Digital .Up) [.MousePosition, .Key [0]]
      ≠ some (.Analog 5 7) := by
  exact ⟨rfl, by decide⟩

/-- Claim C2 (amended): the first alternative that accepts with a
break — a fully-held `Key` list, a fully-held `MouseButton` list, or
an accepted gamepad alternative — determines the action's value and
no later alternative is evaluated; a `MousePosition` alternative
only assigns the running candidate and evaluation continues, so a
later matching alternative can overwrite it. -/
theorem first_accepted_break_wins (s : Snapshot) (active v : ActionType)
    (c : SDLCommand) (rest : List SDLCommand)
    (h : evalCommandApp s c = some (.accept v)) :
    resolveApp s active (c :: rest) = some v ∧
    resolveApp s active (.MousePosition :: rest)
      = resolveApp s (.Analog (s.mouseX : ℚ) (s.mouseY : ℚ)) rest := by
  constructor
  · simp [resolveApp, h]
  · simp [resolveApp, evalCommandApp]

/-- Witness for the amended C2: scancode `0` is held in
`snapMouseKey`, so a leading `Key([0])` alternative accepts `Down`
regardless of the alternatives behind it. -/
theorem first_accepted_break_wins_witness :
    resolveApp snapMouseKey (.Digital .Up) [.Key [0], .MousePosition]
      = some (.Digital .Down) :=
  (first_accepted_break_wins snapMouseKey (.Digital .Up) (.Digital .Down)
    (.Key [0]) [.MousePosition] (by decide)).1

/-- A rejected alternative advances the `'commands` loop with the
running candidate unchanged. -/
lemma resolveApp_reject (s : Snapshot) (active : ActionType)
    (c : SDLCommand) (rest : List SDLCommand)
    (h : evalCommandApp s c = some .reject) :
    resolveApp s active (c :: rest) = resolveApp s active rest := by
  simp [resolveApp, h]

/-- The any-device axis loop rejects when every connected
controller's normalized reading is inside the `0.1` dead-zone. -/
lemma evalFeatureAny_axis_reject (ctrls : List Controller) (a : GAxis)
    (h : ∀ c ∈ ctrls, |translate_axis (c.axis a)| < anyDeadZone) :
    evalFeatureAny ctrls (.Axis a) = .reject := by
  induction ctrls with
  | nil => rfl
  | cons c rest ih =>
    have h1 : ¬ anyDeadZone ≤ |translate_axis (c.axis a)| :=
      not_le.mpr (h c (List.mem_cons_self _ _))
    simp only [evalFeatureAny, if_neg h1]
    exact ih fun d hd => h d (List.mem_cons_of_mem _ hd)

/-- The any-device stick loop rejects when both normalized readings
of every connected controller are inside the `0.1` dead-zone. -/
lemma evalFeatureAny_stick_reject (ctrls : List Controller)
    (x y : GAxis)
    (h : ∀ c ∈ ctrls, |translate_axis (c.axis x)| < anyDeadZone ∧
      |translate_axis (c.axis y)| < anyDeadZone) :
    evalFeatureAny ctrls (.Stick x y) = .reject := by
  induction ctrls with
  | nil => rfl
  | cons c rest ih =>
    have h1 := h c (List.mem_cons_self _ _)
    have hcond : ¬ (anyDeadZone ≤ |translate_axis (c.axis x)| ∨
        anyDeadZone ≤ |translate_axis (c.axis y)|) :=
      not_or.mpr ⟨not_le.mpr h1.1, not_le.mpr h1.2⟩
    simp only [evalFeatureAny, if_neg hcond]
    exact ih fun d hd => h d (List.mem_cons_of_mem _ hd)

/-- Claim C3 counterexample: with one connected controller whose
axis reads `50`, a specific-device axis alternative uses the
`f32::EPSILON` dead-zone of `src/app.rs` line 90, so the action is
reported as the active, partially scaled value `Axis(50/32767)` —
refuting both "normalizes to exactly 0.0" and "does not cause the
action to be reported as active". -/
theorem axis50_activates_specific_device :
    translate_axis (axis50Controller.axis 0) = 50 / 32767 ∧
    resolveApp snapAxis50 (.Digital .Up) [.Gamepad (.Axis 0) (some 0)]
      = some (.Axis (50 / 32767)) ∧
    (50 / 32767 : ℚ) ≠ 0 := by
  have hval : translate_axis (axis50Controller.axis 0) = 50 / 32767 := by
    norm_num [translate_axis, axis50Controller]
  have hge : epsilon ≤ |(50 / 32767 : ℚ)| := by
    rw [abs_of_pos (by norm_num)]
    norm_num [epsilon]
  refine ⟨hval, ?_, by norm_num⟩
  simp [resolveApp, evalCommandApp, evalFeatureAt, snapAxis50, hge, hval]

/-- Claim C3 (amended): each gamepad analog path rejects readings
inside its own dead-zone — `0.1` on the any-device path, `f32`
machine epsilon on the specific-device path — leaving the running
candidate untouched (never a partially scaled value); the raw
reading `50` is neutral on the any-device path but, per the
counterexample, active on the specific-device path. -/
theorem dead_zone_rejects (s : Snapshot) (active : ActionType)
    (a x y : GAxis) (i : Nat) (ctrl : Controller)
    (rest : List SDLCommand)
    (hanyA : ∀ c ∈ s.controllers, |translate_axis (c.axis a)| < anyDeadZone)
    (hanyS : ∀ c ∈ s.controllers,
      |translate_axis (c.axis x)| < anyDeadZone ∧
      |translate_axis (c.axis y)| < anyDeadZone)
    (hc : s.controllers.get? i = some ctrl)
    (hepsA : |translate_axis (ctrl.axis a)| < epsilon)
    (hepsS : |translate_axis (ctrl.axis x)| < epsilon ∧
      |translate_axis (ctrl.axis y)| < epsilon) :
    resolveApp s active (.Gamepad (.Axis a) none :: rest)
      = resolveApp s active rest ∧
    resolveApp s active (.Gamepad (.Stick x y) none :: rest)
      = resolveApp s active rest ∧
    resolveApp s active (.Gamepad (.Axis a) (some i) :: rest)
      = resolveApp s active rest ∧
    resolveApp s active (.Gamepad (.Stick x y) (some i) :: rest)
      = resolveApp s active rest := by
  refine ⟨?_, ?_, ?_, ?_⟩
  · refine resolveApp_reject s active _ rest ?_
    simp only [evalCommandApp]
    rw [evalFeatureAny_axis_reject s.controllers a hanyA]
  · refine resolveApp_reject s active _ rest ?_
    simp only [evalCommandApp]
    rw [evalFeatureAny_stick_reject s.controllers x y hanyS]
  · refine resolveApp_reject s active _ rest ?_
    simp [evalCommandApp, evalFeatureAt, hc, not_le.mpr hepsA]
    refine ⟨ctrl, ?_, hepsA⟩
    rw [← List.get?_eq_getElem?]
    exact hc
  · refine resolveApp_reject s active _ rest ?_
    simp [evalCommandApp, evalFeatureAt, hc, not_le.mpr hepsS.1,
      not_le.mpr hepsS.2]
    refine ⟨ctrl, ?_, hepsS.1, hepsS.2⟩
    rw [← List.get?_eq_getElem?]
    exact hc

/-- Witness for the amended C3: the idle controller's centered axes
are rejected by every analog path. -/
theorem dead_zone_rejects_witness :
    resolveApp snapNoInput (.Digital .Up) [.Gamepad (.Axis 0) none]
      = resolveApp snapNoInput (.Digital .Up) [] :=
  (dead_zone_rejects snapNoInput (.Digital .Up) 0 0 1 0 idleController []
    (by norm_num [snapNoInput, idleController, translate_axis, anyDeadZone])
    (by norm_num [snapNoInput, idleController, translate_axis, anyDeadZone])
    (by rfl)
    (by norm_num [idleController, translate_axis, epsilon])
    (by norm_num [idleController, translate_axis, epsilon])).1

/-- Claim C5 counterexample: an action currently holding an analog
value whose only (analog) alternative fails is updated with
`Digital(Up)` — not its shape's neutral `Analog{0,0}` — because the
candidate at `src/app.rs` line 46 is always `Digital(Up)`. -/
theorem analog_action_reset_to_digital_up :
    processed_events [] snapEmpty [⟨[.Analog 3 4]⟩]
      [⟨[.Gamepad (.Stick 0 1) none], 0, 0⟩]
      = some ([⟨[.Digital .Up]⟩], 0, true) ∧
    ActionType.Digital .Up ≠ ActionType.Analog 0 0 := by
  exact ⟨by decide, by decide⟩

/-- Claim C5 (amended): for every flattened binding entry the
resolver initializes the frame's candidate to `Digital(Up)`
regardless of the action's declared shape, so an action whose
alternatives all fail resolves to `Digital(Up)` even when the
action is analog or axis shaped. -/
theorem all_rejected_yields_digital_up (s : Snapshot)
    (cmds : List SDLCommand)
    (h : ∀ c ∈ cmds, evalCommandApp s c = some .reject) :
    resolveApp s (.Digital .Up) cmds = some (.Digital .Up) := by
  induction cmds with
  | nil => rfl
  | cons c rest ih =>
    rw [resolveApp_reject s _ c rest (h c (List.mem_cons_self _ _))]
    exact ih fun d hd => h d (List.mem_cons_of_mem _ hd)

/-- Witness for the amended C5: a failing stick alternative with no
controller connected yields `Digital(Up)`. -/
theorem all_rejected_yields_digital_up_witness :
    resolveApp snapEmpty (.Digital .Up) [.Gamepad (.Stick 0 1) none]
      = some (.Digital .Up) :=
  all_rejected_yields_digital_up snapEmpty [.Gamepad (.Stick 0 1) none]
    (by decide)

/-- A one-action user fixture. -/
def userOneAction : InputUser :=
  ⟨[.Digital .Up]⟩

/-- Claim C6: an `ActionIndexOutOfBounds` from `update_action` on one
flattened entry is logged (the error count grows by one) and
non-fatal: the users are handed unchanged to the remaining entries,
which are still resolved, and `processed_events` still returns
`Ok(true)`. -/
theorem oob_action_index_nonfatal (evts : List SDLEvent) (s : Snapshot)
    (users : List InputUser) (co : CommandOptions)
    (rest : List CommandOptions) (u : InputUser)
    (us : List InputUser) (n : Nat)
    (hq : hasQuit evts = false)
    (hres : (resolveApp s (.Digital .Up) co.commands).isSome)
    (hu : users.get? co.user_index = some u)
    (hoob : u.actions.length ≤ co.action_index)
    (hrest : processAll (fun s cs => resolveApp s (.Digital .Up) cs) s
      users rest = some (us, n)) :
    processed_events evts s users (co :: rest)
      = some (us, 1 + n, true) := by
  obtain ⟨active, hactive⟩ := Option.isSome_iff_exists.mp hres
  have hone : processOne (fun s cs => resolveApp s (.Digital .Up) cs) s
      users co = some (users, 1) := by
    simp only [processOne, hactive, hu, update_action,
      if_neg (not_lt.mpr hoob)]
  simp only [processed_events, hq, Bool.false_eq_true, if_false,
    processAll, hone, hrest]

/-- Witness for C6: action index `5` on a one-action user is logged
and the following entry still resolves. -/
theorem oob_action_index_nonfatal_witness :
    processed_events [] snapEmpty [userOneAction]
      [⟨[], 0, 5⟩, ⟨[], 0, 0⟩] = some ([userOneAction], 1, true) :=
  oob_action_index_nonfatal [] snapEmpty [userOneAction] ⟨[], 0, 5⟩
    [⟨[], 0, 0⟩] userOneAction [userOneAction] 0 (by rfl) (by rfl)
    (by rfl) (by norm_num [userOneAction]) (by rfl)

/-- Instructions of the `update` loop concatenate their effects. -/
lemma execBatch_append {T F S M : Type} (st : SDLStorage T F S M)
    (l1 l2 : List UpdateAction) :
    execBatch st (l1 ++ l2) = execBatch st l1 ++ execBatch st l2 := by
  induction l1 with
  | nil => rfl
  | cons i rest ih => simp [execBatch, ih]

/-- Claim C7: a `PlaySound` or `PlayMusic` instruction whose ticket
fails to resolve only logs the resource error; every instruction
before and after it in the same batch is still executed. -/
theorem failed_audio_instruction_dropped {T F S M : Type}
    (st : SDLStorage T F S M) (t t2 : Ticket) (v v2 : ℚ) (loops : ℤ)
    (pre post : List UpdateAction) (e e2 : ResourceError)
    (hs : get_by_ticket st.sounds t = .error e)
    (hm : get_by_ticket st.music t2 = .error e2) :
    execBatch st (pre ++ UpdateAction.PlaySound t v :: post)
      = execBatch st pre
        ++ AudioEvent.LoggedResourceError e :: execBatch st post ∧
    execBatch st (pre ++ UpdateAction.PlayMusic t2 loops v2 :: post)
      = execBatch st pre
        ++ AudioEvent.LoggedResourceError e2 :: execBatch st post := by
  constructor
  · rw [execBatch_append]
    simp [execBatch, execInstr, play_sound, hs]
  · rw [execBatch_append]
    simp [execBatch, execInstr, play_music, hm]

/-- A store with one registered but pending (never loaded) slot. -/
def pendingStore : Store Nat :=
  ⟨["res"], [.Pending], true⟩

/-- An empty, unlocked store. -/
def emptyStore : Store Nat :=
  ⟨[], [], false⟩

/-- Directory fixture whose sound slot 0 is pending and whose music
store is empty. -/
def storagePending : SDLStorage Nat Nat Nat Nat :=
  ⟨emptyStore, emptyStore, pendingStore, emptyStore⟩

/-- Witness for C7: a pending sound ticket logs `ResourceNotLoaded`
and the next `PlaySound` in the batch still executes. -/
theorem failed_audio_instruction_dropped_witness :
    execBatch storagePending
      ([] ++ UpdateAction.PlaySound 0 1 :: [UpdateAction.PlaySound 0 1])
      = execBatch storagePending []
        ++ AudioEvent.LoggedResourceError .ResourceNotLoaded
          :: execBatch storagePending [UpdateAction.PlaySound 0 1] :=
  (failed_audio_instruction_dropped storagePending 0 0 1 1 0 []
    [UpdateAction.PlaySound 0 1] .ResourceNotLoaded .TicketNotFound
    (by rfl) (by rfl)).1

/-- Texture store fixture: ticket 0 pending, ticket 1 loaded. -/
def twoTexStore : Store Nat :=
  ⟨["p", "q"], [.Pending, .Loaded 7], true⟩

/-- Directory fixture around `twoTexStore`. -/
def storageDraw : SDLStorage Nat Nat Nat Nat :=
  ⟨emptyStore, twoTexStore, emptyStore, emptyStore⟩

/-- Claim C8 counterexample: with draw instructions `[0, 1]` where
ticket 0 is pending and ticket 1 is loaded, the failed resolution of
ticket 0 `return`s from `draw`: ticket 1 is never rendered and the
canvas is never presented, refuting "the remaining draw instructions
are still executed and the canvas is still presented". -/
theorem draw_error_abandons_frame :
    get_by_ticket storageDraw.textures 1 = .ok 7 ∧
    drawFrame storageDraw [0, 1]
      = [DrawEvent.LoggedResourceError .ResourceNotLoaded] ∧
    DrawEvent.Rendered 1 ∉ drawFrame storageDraw [0, 1] ∧
    DrawEvent.Presented ∉ drawFrame storageDraw [0, 1] := by
  exact ⟨rfl, rfl, by decide, by decide⟩

/-- Claim C8 (amended): a ticket resolution error on one draw
instruction is logged and `draw` returns at once: the whole
remaining draw pass of the frame is abandoned and the canvas is not
presented; the draw call itself completes normally, so the frame
loop continues with the next frame. -/
theorem draw_error_logged_and_pass_abandoned {T F S M : Type}
    (st : SDLStorage T F S M) (t : Ticket) (rest : List Ticket)
    (e : ResourceError)
    (h : get_by_ticket st.textures t = .error e) :
    drawFrame st (t :: rest) = [DrawEvent.LoggedResourceError e] ∧
    DrawEvent.Presented ∉ drawFrame st (t :: rest) := by
  have h1 : drawFrame st (t :: rest)
      = [DrawEvent.LoggedResourceError e] := by
    simp [drawFrame, h]
  refine ⟨h1, ?_⟩
  rw [h1]
  simp

/-- Witness for the amended C8 at the concrete fixture. -/
theorem draw_error_logged_witness :
    drawFrame storageDraw ([0] ++ [1])
      = [DrawEvent.LoggedResourceError .ResourceNotLoaded] :=
  (draw_error_logged_and_pass_abandoned storageDraw 0 [1]
    .ResourceNotLoaded (by rfl)).1

/-- Claim C9: `get_ticket_with_key` routes each known storage kind to
exactly its matching store's `take_ticket` and fails every other
kind with an explicit `UnknownStorage` error, never a ticket from a
default store. -/
theorem storage_kind_routing {T F S M : Type} (st : SDLStorage T F S M)
    (key name : String) :
    get_ticket_with_key st .Texture key = take_ticket st.textures key ∧
    get_ticket_with_key st .Font key = take_ticket st.fonts key ∧
    get_ticket_with_key st .Music key = take_ticket st.music key ∧
    get_ticket_with_key st .Sound key = take_ticket st.sounds key ∧
    get_ticket_with_key st (.Other name) key
      = .error (.UnknownStorage name) :=
  ⟨rfl, rfl, rfl, rfl, rfl⟩

/-- The non-gamepad command fragment: `Key`, `MouseButton`, and
`MousePosition` alternatives. -/
def nonGamepad : SDLCommand → Bool
  | .Gamepad _ _ => false
  | _ => true

/-- On non-gamepad commands the two duplicated command evaluators
agree. -/
lemma evalCommand_agree (s : Snapshot) (c : SDLCommand)
    (h : nonGamepad c = true) :
    evalCommandLib s c = evalCommandApp s c := by
  cases c with
  | Key _ => rfl
  | MouseButton _ => rfl
  | MousePosition => rfl
  | Gamepad f ctl => simp [nonGamepad] at h

/-- On non-gamepad binding lists the two duplicated `'commands`
loops agree. -/
lemma resolve_agree (s : Snapshot) (active : ActionType)
    (cmds : List SDLCommand) (h : ∀ c ∈ cmds, nonGamepad c = true) :
    resolveLib s active cmds = resolveApp s active cmds := by
  induction cmds generalizing active with
  | nil => rfl
  | cons c rest ih =>
    have hrest : ∀ d ∈ rest, nonGamepad d = true :=
      fun d hd => h d (List.mem_cons_of_mem _ hd)
    simp only [resolveLib, resolveApp,
      evalCommand_agree s c (h c (List.mem_cons_self _ _))]
    cases hc : evalCommandApp s c with
    | none => rfl
    | some r =>
      cases r with
      | accept v => rfl
      | set v => exact ih v hrest
      | reject => exact ih active hrest

/-- On non-gamepad entries the two duplicated resolver loop bodies
agree. -/
lemma processOne_agree (s : Snapshot) (users : List InputUser)
    (co : CommandOptions) (h : ∀ c ∈ co.commands, nonGamepad c = true) :
    processOne (fun s cs => resolveLib s (.Digital .Up) cs) s users co
      = processOne (fun s cs => resolveApp s (.Digital .Up) cs) s users
        co := by
  simp only [processOne, resolve_agree s (.Digital .Up) co.commands h]

/-- On non-gamepad entry lists the two duplicated resolver loops
agree. -/
lemma processAll_agree (s : Snapshot) (entries : List CommandOptions)
    (h : ∀ co ∈ entries, ∀ c ∈ co.commands, nonGamepad c = true) :
    ∀ users, processAll (fun s cs => resolveLib s (.Digital .Up) cs) s
        users entries
      = processAll (fun s cs => resolveApp s (.Digital .Up) cs) s users
        entries := by
  induction entries with
  | nil => intro users; rfl
  | cons co rest ih =>
    intro users
    have hco := h co (List.mem_cons_self _ _)
    have hrest : ∀ d ∈ rest, ∀ c ∈ d.commands, nonGamepad c = true :=
      fun d hd => h d (List.mem_cons_of_mem _ hd)
    simp only [processAll, processOne_agree s users co hco]
    cases processOne (fun s cs => resolveApp s (.Digital .Up) cs) s
        users co with
    | none => rfl
    | some p =>
      obtain ⟨us, n⟩ := p
      simp only [ih hrest us]

/-- Claim C10: for every device snapshot and every binding list whose
alternatives use only `Key`, `MouseButton`, and `MousePosition`
commands, the `src/lib.rs` resolver loop and the `src/app.rs`
resolver loop compute the same value for every action (and the same
logged-error count and return value). -/
theorem resolver_variants_agree (evts : List SDLEvent) (s : Snapshot)
    (users : List InputUser) (entries : List CommandOptions)
    (h : ∀ co ∈ entries, ∀ c ∈ co.commands, nonGamepad c = true) :
    processed_events_lib evts s users entries
      = processed_events evts s users entries := by
  simp only [processed_events_lib, processed_events,
    processAll_agree s entries h users]

/-- Witness for C10: both variants resolve a held-key binding to the
same updated user list. -/
theorem resolver_variants_agree_witness :
    processed_events_lib [] snapMouseKey [userOneAction]
      [⟨[.Key [0], .MousePosition], 0, 0⟩]
      = processed_events [] snapMouseKey [userOneAction]
        [⟨[.Key [0], .MousePosition], 0, 0⟩] :=
  resolver_variants_agree [] snapMouseKey [userOneAction]
    [⟨[.Key [0], .MousePosition], 0, 0⟩] (by decide)

end StagehandSDL
